import Mathlib

/-!
Verification of the MirCrew scraping client (`mircrew_mcp`): a shallow
embedding of `client.py` and `parser.py` into Lean, together with proofs
about the session state machine, the authenticated request gateway and the
HTML extraction engine.

An HTML document is modelled in its already-parsed form (the `Html`
structure below plays the role of a `BeautifulSoup` document): the raw
response text, the list of anchors in document order, the flattened text,
and the handful of specific elements the code queries.  All Python string
scans (the `re` patterns used by the source) are implemented character by
character on `List Char`, following the search/backtracking semantics of
the original patterns.  Python whitespace is modelled by its ASCII subset.
-/

/-! ## Python string primitives -/

/-- ASCII model of Python `str.isspace` characters (`\s` of `re`). -/
def isPySpace (c : Char) : Bool :=
  c = ' ' || c = '\t' || c = '\n' || c = '\r' || c.toNat = 11 || c.toNat = 12

/-- Python `str.strip()` on a character list. -/
def pyStripL (l : List Char) : List Char :=
  ((l.dropWhile isPySpace).reverse.dropWhile isPySpace).reverse

/-- Python `str.strip()`. -/
def pyStrip (s : String) : String := ⟨pyStripL s.data⟩

/-- Python `str.isdigit()` (ASCII digits): non-empty and all digits. -/
def pyIsDigit (s : String) : Bool := !s.data.isEmpty && s.data.all Char.isDigit

/-- Python `str.startswith(p)`. -/
def strStartsWith (s p : String) : Bool := p.data.isPrefixOf s.data

/-- Python `str.lower()` (ASCII model). -/
def strToLower (s : String) : String := ⟨s.data.map Char.toLower⟩

/-- Python `s.split("\n")`: split on every newline, keeping empty pieces
(the empty string yields one empty piece). -/
def splitNlAux : List Char → List Char → List String
  | [], acc => [⟨acc.reverse⟩]
  | c :: rest, acc =>
    if c = '\n' then (⟨acc.reverse⟩ : String) :: splitNlAux rest []
    else splitNlAux rest (c :: acc)

/-- Python `s.split("\n")`. -/
def splitNl (s : String) : List String := splitNlAux s.data []

/-- Does `step` hold at some position of the list (the position scan performed
by an unanchored `re.search`)?  The final empty position is tried as well. -/
def anyPosition (step : List Char → Bool) : List Char → Bool
  | [] => step []
  | c :: rest => step (c :: rest) || anyPosition step rest

/-- Leftmost-position search: the scan underlying `re.search`; `step` returns
the matched payload when the pattern matches at that position. -/
def scanPositions (step : List Char → Option (List Char)) : List Char → Option (List Char)
  | [] => step []
  | c :: rest =>
    match step (c :: rest) with
    | some r => some r
    | none => scanPositions step rest

/-- Python `needle in hay` substring test. -/
def strContains (hay needle : String) : Bool :=
  anyPosition (fun l => needle.data.isPrefixOf l) hay.data

/-- Model of `re.sub(r"\s+", " ", value)`: every maximal whitespace run is
replaced by a single space. -/
def collapseWs : List Char → List Char
  | [] => []
  | [a] => if isPySpace a then [' '] else [a]
  | a :: b :: t =>
    if isPySpace a then
      (if isPySpace b then collapseWs (b :: t) else ' ' :: collapseWs (b :: t))
    else a :: collapseWs (b :: t)

/-! ## Data model (`models.py`) -/

/-- `MovieSearchResult` of `models.py`. -/
structure MovieSearchResult where
  id : String
  title : String
  url : String
deriving DecidableEq, Repr

/-- `MovieDetails` of `models.py`. -/
structure MovieDetails where
  id : String
  title : String
  url : String
  description : String
  year : Option String
  genre : Option String
  quality : Option String
  size : Option String
  posted_by : Option String
  posted_date : Option String
  raw_content : String
deriving DecidableEq, Repr

/-- The exception taxonomy of `exceptions.py`, flattened into one type;
`mirCrewError` is the catch-all base class used for unexpected errors. -/
inductive MirErr where
  | authenticationError (msg : String)
  | movieNotFoundError (msg : String)
  | parsingError (msg : String)
  | networkError (msg : String)
  | mirCrewError (msg : String)
deriving DecidableEq, Repr

/-! ## Parsed HTML documents

The fields below hold exactly the element queries the source performs on a
`BeautifulSoup` document.  An anchor models one `<a>` tag: its `id` and
`href` attributes and its visible text (assumed to be a single text node, so
`get_text(strip=True)` is `pyStrip` of it). -/

/-- One `<a>` tag. -/
structure Anchor where
  idAttr : Option String
  href : Option String
  text : String
deriving DecidableEq, Repr

/-- The `h2.topic-title` heading: its first inner `<a>` text (if any) and
its own text. -/
structure TopicTitle where
  linkText : Option String
  text : String
deriving DecidableEq, Repr

/-- A candidate post-body `<div>`: the texts of its `<p>` descendants in
document order, and its `get_text(strip=True)` flattening. -/
structure ParaDiv where
  paragraphs : List String
  rawText : String
deriving DecidableEq, Repr

/-- The `p.author` byline: the inner `a.username*` link text (if any) and
the byline text from `get_text()`. -/
structure AuthorP where
  usernameLink : Option String
  text : String
deriving DecidableEq, Repr

/-- A parsed HTML document (the role of `BeautifulSoup(html, "lxml")`).
`formTokenInput`/`creationTimeInput` are the `<input>` tags of those names
(outer `Option`: tag present; inner: its `value` attribute).
`loginFormAction` is the `action` attribute of the first `<form>` whose
action matches `ucp\.php\?mode=login`.  `contentDiv` is the first `<div>`
whose class matches `content`, `postbodyDiv` the first `div.postbody`. -/
structure Html where
  raw : String
  anchors : List Anchor
  flatText : String
  topicTitle : Option TopicTitle
  titleTag : Option String
  contentDiv : Option ParaDiv
  postbodyDiv : Option ParaDiv
  authorP : Option AuthorP
  formTokenInput : Option (Option String)
  creationTimeInput : Option (Option String)
  loginFormAction : Option String
deriving DecidableEq, Repr

/-! ## `parser.py`: parse_search_results -/

/-- Does `\.?/viewtopic\.php\?t=\d+` match at this position?  The optional
leading dot first (greedy), then without it. -/
def topicCore (l : List Char) : Bool :=
  "/viewtopic.php?t=".data.isPrefixOf l &&
    (match l.drop 17 with | c :: _ => c.isDigit | [] => false)

/-- One position of the `href=re.compile(r"\.?/viewtopic\.php\?t=\d+")` scan. -/
def topicAt (l : List Char) : Bool :=
  (match l with | '.' :: r => topicCore r | _ => false) || topicCore l

/-- `re.search(r"\.?/viewtopic\.php\?t=\d+", href)` as a Boolean. -/
def hasTopicLink (href : String) : Bool := anyPosition topicAt href.data

/-- One position of the `re.search(r"[?&]t=(\d+)", href)` scan: a `?` or `&`
followed by `t=` and at least one digit; the capture is the maximal digit
run. -/
def topicIdAt (l : List Char) : Option (List Char) :=
  match l with
  | c :: 't' :: '=' :: r =>
    if c = '?' || c = '&' then
      (let ds := r.takeWhile Char.isDigit
       if ds.isEmpty then none else some ds)
    else none
  | _ => none

/-- `re.search(r"[?&]t=(\d+)", href)`, returning group 1. -/
def findTopicId (l : List Char) : Option (List Char) := scanPositions topicIdAt l

/-- URL resolution of `parse_search_results`: strip a leading `./`, then
prepend the base URL unless the href is already absolute. -/
def buildUrl (baseUrl href0 : String) : String :=
  let href := if strStartsWith href0 "./" then ⟨href0.data.drop 2⟩ else href0
  if !(strStartsWith href "http") then baseUrl ++ "/" ++ href else href

/-- The anchor filter of `soup.find_all("a", href=re.compile(...))`: anchors
without an `href` attribute never match. -/
def hrefFilter (a : Anchor) : Bool :=
  match a.href with
  | some h => hasTopicLink h
  | none => false

/-- The per-anchor body of the `parse_search_results` loop, up to the
deduplication test: extract the id, skip empty titles, build the URL. -/
def anchorCandidate (baseUrl : String) (a : Anchor) : Option MovieSearchResult :=
  let href := match a.href with | some h => h | none => ""
  match findTopicId href.data with
  | none => none
  | some tid =>
    let title := pyStrip a.text
    if title = "" then none
    else some { id := ⟨tid⟩, title := title, url := buildUrl baseUrl href }

/-- The accumulation loop of `parse_search_results`: append a result only
when no already-collected result has the same topic id. -/
def searchLoop (baseUrl : String) : List Anchor → List MovieSearchResult → List MovieSearchResult
  | [], results => results
  | link :: rest, results =>
    match anchorCandidate baseUrl link with
    | none => searchLoop baseUrl rest results
    | some r =>
      if results.any (fun x => decide (x.id = r.id)) then searchLoop baseUrl rest results
      else searchLoop baseUrl rest (results ++ [r])

/-- `parse_search_results(html, base_url)` of `parser.py`. -/
def parseSearchResults (h : Html) (baseUrl : String) : List MovieSearchResult :=
  searchLoop baseUrl (h.anchors.filter hrefFilter) []

/-! ## `parser.py`: _extract_field and the metadata regexes -/

/-- Match a literal pattern (given lowercase) case-insensitively at the head
of `l`, returning the remaining characters (model of `re.IGNORECASE` on the
ASCII letters of the labels). -/
def matchCIRest : List Char → List Char → Option (List Char)
  | [], l => some l
  | _ :: _, [] => none
  | p :: ps, c :: cs => if c.toLower = p then matchCIRest ps cs else none

/-- Regex alternation over literal labels, first alternative first.  The
labels used below are pairwise non-overlapping on any fixed text, so plain
first-match alternation coincides with backtracking alternation. -/
def altMatch : List String → List Char → Option (List Char)
  | [], _ => none
  | lab :: labs, l =>
    match matchCIRest lab.data l with
    | some r => some r
    | none => altMatch labs l

/-- The `\s*(\d{4})` tail of the year pattern: skip the maximal whitespace
run, then require exactly four digits (whitespace and digits are disjoint,
so the greedy `\s*` never backtracks here). -/
def yearGroup (r : List Char) : Option (List Char) :=
  let w := (r.takeWhile isPySpace).length
  let ds := (r.drop w).take 4
  if ds.length = 4 && ds.all Char.isDigit then some ds else none

/-- The `\s*([^\n]+)` tail of the line-field patterns, with the greedy
`\s*` backtracking of `re`: the maximal whitespace run is consumed first;
when it reaches the end of the text, `\s*` gives characters back until a
non-newline character is available for `[^\n]+`. -/
def lineGroup (r : List Char) : Option (List Char) :=
  let w := (r.takeWhile isPySpace).length
  if w < r.length then some ((r.drop w).takeWhile (fun c => !(c = '\n')))
  else
    match r.reverse.dropWhile (fun c => c = '\n') with
    | [] => none
    | c :: _ => some [c]

/-- One position of a `(?:LAB1|LAB2):<tail>` field pattern. -/
def labelStep (labels : List String) (g : List Char → Option (List Char))
    (l : List Char) : Option (List Char) :=
  match altMatch labels l with
  | some rest => g rest
  | none => none

/-- `re.search(r"(?:Anno|Year):\s*(\d{4})", text, I|M)`, group 1. -/
def findYear (l : List Char) : Option (List Char) :=
  scanPositions (labelStep ["anno:", "year:"] yearGroup) l

/-- `re.search(r"(?:Genere|Genre):\s*([^\n]+)", text, I|M)`, group 1. -/
def findGenre (l : List Char) : Option (List Char) :=
  scanPositions (labelStep ["genere:", "genre:"] lineGroup) l

/-- `re.search(r"(?:Qualità|Quality):\s*([^\n]+)", text, I|M)`, group 1. -/
def findQuality (l : List Char) : Option (List Char) :=
  scanPositions (labelStep ["qualità:", "quality:"] lineGroup) l

/-- `re.search(r"(?:Dimensione|Size):\s*([^\n]+)", text, I|M)`, group 1. -/
def findSize (l : List Char) : Option (List Char) :=
  scanPositions (labelStep ["dimensione:", "size:"] lineGroup) l

/-- The post-match cleanup of `_extract_field`: `strip()`, collapse
whitespace runs, and map an empty result to `None`. -/
def cleanFieldValue (g : List Char) : Option String :=
  let v := collapseWs (pyStripL g)
  if v.isEmpty then none else some ⟨v⟩

/-- `_extract_field(text, pattern)` of `parser.py`, with the pattern search
supplied as `finder`. -/
def extractField (finder : List Char → Option (List Char)) (text : String) : Option String :=
  match finder text.data with
  | none => none
  | some g => cleanFieldValue g

/-! ## `parser.py`: parse_movie_details -/

/-- One position of `re.sub(r"\s*-\s*MirCrew.*$", "", title)`: optional
whitespace, a dash, optional whitespace, the literal `MirCrew`, then the
rest of the line; `$` (no MULTILINE) accepts only the end of the string or
a single final newline.  Returns the match length. -/
def mirCrewMatchLen (l : List Char) : Option Nat :=
  let w1 := (l.takeWhile isPySpace).length
  match l.drop w1 with
  | '-' :: r2 =>
    let w2 := (r2.takeWhile isPySpace).length
    let r3 := r2.drop w2
    if "MirCrew".data.isPrefixOf r3 then
      let r4 := r3.drop 7
      let line := r4.takeWhile (fun c => !(c = '\n'))
      let after := r4.drop line.length
      if after.isEmpty || after = ['\n'] then some (w1 + 1 + w2 + 7 + line.length)
      else none
    else none
  | _ => none

/-- The substitution itself.  Because the pattern is anchored at the end of
the string, at most one match exists; the scan removes it and keeps the
remainder (which is empty or a final newline and cannot match again). -/
def stripMirCrewTail : List Char → List Char
  | [] => []
  | c :: rest =>
    match mirCrewMatchLen (c :: rest) with
    | some n => (c :: rest).drop n
    | none => c :: stripMirCrewTail rest

/-- The title resolution of `parse_movie_details`: the topic-title heading
link text, else the heading text, else the page title with the site-name
suffix stripped. -/
def titleOf (h : Html) : String :=
  let t :=
    match h.topicTitle with
    | some tt =>
      (match tt.linkText with
       | some lt => pyStrip lt
       | none => pyStrip tt.text)
    | none => ""
  if t = "" then
    match h.titleTag with
    | some pt => ⟨stripMirCrewTail (pyStrip pt).data⟩
    | none => ""
  else t

/-- The post-body selection: `div` with class matching `content`, else
`div.postbody`. -/
def postContentOf (h : Html) : Option ParaDiv :=
  match h.contentDiv with
  | some d => some d
  | none => h.postbodyDiv

/-- `\d{1,2}/` with the greedy quantifier: two digits and a slash, else one
digit and a slash.  Returns the consumed characters and the rest. -/
def dayMonthAt : List Char → Option (List Char × List Char)
  | a :: b :: c :: r =>
    if a.isDigit && b.isDigit && c = '/' then some ([a, b, '/'], r)
    else if a.isDigit && b = '/' then some ([a, '/'], c :: r)
    else none
  | [a, b] => if a.isDigit && b = '/' then some ([a, '/'], []) else none
  | _ => none

/-- One position of `re.search(r"(\d{1,2}/\d{1,2}/\d{4})", date_text)`. -/
def dateMatchAt (l : List Char) : Option (List Char) :=
  match dayMonthAt l with
  | none => none
  | some (c1, r1) =>
    match dayMonthAt r1 with
    | none => none
    | some (c2, r2) =>
      let ds := r2.take 4
      if ds.length = 4 && ds.all Char.isDigit then some (c1 ++ c2 ++ ds) else none

/-- The date search over the byline text. -/
def findDate (l : List Char) : Option (List Char) := scanPositions dateMatchAt l

/-- The shared shape of the two description loops of `parse_movie_details`:
first entry whose stripped text exceeds 50 characters, else empty. -/
def firstOver50 : List String → String
  | [] => ""
  | p :: rest =>
    let t := pyStrip p
    if 50 < t.length then t else firstOver50 rest

/-- `parse_movie_details(html, movie_id, base_url)` of `parser.py`.  (The
enclosing `try/except` wraps exceptions that cannot arise in this pure
model, so the function is total.) -/
def parseMovieDetails (h : Html) (movieId baseUrl : String) : MovieDetails :=
  let title := titleOf h
  let pc := postContentOf h
  let rawContent := match pc with | some d => d.rawText | none => ""
  let year := extractField findYear rawContent
  let genre := extractField findGenre rawContent
  let quality := extractField findQuality rawContent
  let size := extractField findSize rawContent
  let postedBy :=
    match h.authorP with
    | some ap => (match ap.usernameLink with | some t => some (pyStrip t) | none => none)
    | none => none
  let postedDate :=
    match h.authorP with
    | some ap => (findDate ap.text.data).map (fun g => (⟨g⟩ : String))
    | none => none
  let description :=
    match pc with
    | none => ""
    | some d =>
      let d1 := firstOver50 d.paragraphs
      if d1 = "" then firstOver50 (splitNl d.rawText) else d1
  { id := movieId, title := title, url := baseUrl ++ "/viewtopic.php?t=" ++ movieId,
    description := description, year := year, genre := genre, quality := quality,
    size := size, posted_by := postedBy, posted_date := postedDate,
    raw_content := rawContent }

/-! ## `parser.py`: parse_magnet_link -/

/-- Tier 1 element query: first anchor whose `href` matches `^magnet:\?`. -/
def findMagnetAnchor (l : List Anchor) : Option Anchor :=
  l.find? (fun a => match a.href with | some h => strStartsWith h "magnet:?" | none => false)

/-- Tier 1 of `parse_magnet_link`: the anchor search plus the redundant
`startswith` re-check of the source (falling through when it fails). -/
def tier1 (h : Html) : Option String :=
  match findMagnetAnchor h.anchors with
  | some a =>
    let uri := match a.href with | some u => u | none => ""
    if strStartsWith uri "magnet:?" then some uri else none
  | none => none

/-- ASCII `[a-zA-Z0-9]`. -/
def isAsciiAlnum (c : Char) : Bool := c.isAlpha || c.isDigit

/-- One position of `re.search(r"(magnet:\?xt=urn:btih:[a-zA-Z0-9]+[^\s]*)", text)`:
the literal prefix, at least one alphanumeric character, then the maximal
non-whitespace run (both quantifiers greedy and mutually consistent). -/
def magnetTextAt (l : List Char) : Option (List Char) :=
  if "magnet:?xt=urn:btih:".data.isPrefixOf l then
    match l.drop 20 with
    | [] => none
    | c :: r =>
      if isAsciiAlnum c then
        some ("magnet:?xt=urn:btih:".data ++ (c :: r).takeWhile (fun d => !(isPySpace d)))
      else none
  else none

/-- Tier 2 of `parse_magnet_link`: the flattened-text search. -/
def tier2 (h : Html) : Option String :=
  (scanPositions magnetTextAt h.flatText.data).map (fun m => (⟨m⟩ : String))

/-- The `[^\s\"'<>]` character class (34 and 39 are the two quote
characters). -/
def hrefChar (c : Char) : Bool :=
  !(isPySpace c) && !(c.toNat = 34) && !(c.toNat = 39) && !(c = '<') && !(c = '>')

/-- One position of `re.search(r"(magnet:\?[^\s\"'<>]+)", href)`. -/
def magnetHrefAt (l : List Char) : Option (List Char) :=
  if "magnet:?".data.isPrefixOf l then
    (let run := (l.drop 8).takeWhile hrefChar
     if run.isEmpty then none else some ("magnet:?".data ++ run))
  else none

/-- Tier 3 of `parse_magnet_link`: walk all anchors; for an href containing
`magnet:` extract the magnet-shaped substring, otherwise continue. -/
def tier3 : List Anchor → Option String
  | [] => none
  | a :: rest =>
    let href := match a.href with | some h => h | none => ""
    if strContains href "magnet:" then
      match scanPositions magnetHrefAt href.data with
      | some m => some ⟨m⟩
      | none => tier3 rest
    else tier3 rest

/-- The failure message of `parse_magnet_link`. -/
def magnetNotFoundMsg : String :=
  "Magnet link not found in page. The movie may not have a magnet link available, or the like action may not have been performed correctly."

/-- `parse_magnet_link(html)` of `parser.py`: the three tiers in order,
else `ParsingError`. -/
def parseMagnetLink (h : Html) : Except MirErr String :=
  match tier1 h with
  | some uri => .ok uri
  | none =>
    match tier2 h with
    | some uri => .ok uri
    | none =>
      match tier3 h.anchors with
      | some uri => .ok uri
      | none => .error (.parsingError magnetNotFoundMsg)

/-! ## `client.py`: session state, environments, gateway -/

/-- The session fields of `MirCrewClient.__init__`. -/
structure ClientState where
  session_id : Option String
  user_id : Option String
  autologin_key : Option String
  authenticated : Bool
deriving DecidableEq, Repr

/-- `MirCrewClient.BASE_URL`. -/
def BASE_URL : String := "https://mircrew-releases.org"

/-- Python truthiness of an optional string (`if not x` is false exactly
when the value is present and non-empty). -/
def truthyOpt : Option String → Bool
  | none => false
  | some s => !(s = "")

/-- One HTTP request as issued by the embedded client (the observable the
network sees). -/
structure NetRequest where
  method : String
  url : String
  params : List (String × String)
  body : List (String × String)
  cookies : List (String × String)
deriving DecidableEq, Repr

/-- The outcome the transport returns for a request: a parsed page, or an
`httpx.HTTPError` (transport failure, or a bad status from
`raise_for_status`) carrying `str(e)`. -/
inductive NetOutcome where
  | ok (page : Html)
  | httpError (msg : String)
deriving DecidableEq, Repr

/-- The network oracle for a domain operation: the outcome of the n-th
request the operation makes (indexing lets the thanks action change what a
re-fetch of the same URL returns). -/
structure OpEnv where
  net : Nat → NetRequest → NetOutcome

/-- The environment of one `authenticate()` run: the login-page GET outcome,
the login POST outcome (its body is never inspected), and what
`self.client.cookies.get` returns for the three session cookies afterwards. -/
structure AuthEnv where
  loginPage : NetOutcome
  postOutcome : Except String Unit
  jarSid : Option String
  jarUid : Option String
  jarK : Option String
deriving Repr

/-- `tag.get(name)` through an optional tag: `None` when the tag is absent
or has no such attribute. -/
def optJoin : Option (Option String) → Option String
  | none => none
  | some v => v

/-- `MirCrewClient.authenticate()`.  Returns the Python result (or raised
exception) together with the client state after the call; every state
mutation of the source happens exactly where it happens there. -/
def authenticate (st : ClientState) (env : AuthEnv) : Except MirErr Bool × ClientState :=
  match env.loginPage with
  | .httpError m =>
    (.error (.networkError ("Network error during authentication: " ++ m)), st)
  | .ok page =>
    let formToken := optJoin page.formTokenInput
    let creationTime := optJoin page.creationTimeInput
    if !(truthyOpt formToken) || !(truthyOpt creationTime) then
      (.error (.authenticationError "Failed to extract form tokens from login page. The website structure may have changed."), st)
    else
      match page.loginFormAction with
      | none => (.error (.authenticationError "Login form not found on the page"), st)
      | some action =>
        let formAction := if strStartsWith action "./" then (⟨action.data.drop 2⟩ : String) else action
        let _loginUrl := BASE_URL ++ "/" ++ formAction
        match env.postOutcome with
        | .error m =>
          (.error (.networkError ("Network error during authentication: " ++ m)), st)
        | .ok _ =>
          let st1 := { st with session_id := env.jarSid, user_id := env.jarUid,
                               autologin_key := env.jarK }
          if !(truthyOpt st1.session_id) || !(truthyOpt st1.user_id)
              || decide (st1.user_id = some "1") then
            (.error (.authenticationError "Authentication failed. Please check your credentials."), st1)
          else
            (.ok true, { st1 with authenticated := true })

/-- `MirCrewClient._get_auth_cookies()`: insert each of the three cookies
only when its token is truthy (the keys are distinct, so the successive
dict insertions are list appends). -/
def getAuthCookies (st : ClientState) : List (String × String) :=
  (match st.session_id with
   | some s => if s = "" then [] else [("phpbb3_12hgm_sid", s)]
   | none => []) ++
  (match st.user_id with
   | some s => if s = "" then [] else [("phpbb3_12hgm_u", s)]
   | none => []) ++
  (match st.autologin_key with
   | some s => if s = "" then [] else [("phpbb3_12hgm_k", s)]
   | none => [])

/-- Lookup in a Python dict modelled as an association list with unique
keys. -/
def dictGet (d : List (String × String)) (k : String) : Option String :=
  match d.find? (fun p => decide (p.1 = k)) with
  | some p => some p.2
  | none => none

/-- `d[k] = v` on a Python dict: overwrite in place, else append. -/
def dictSet (d : List (String × String)) (k v : String) : List (String × String) :=
  if d.any (fun p => decide (p.1 = k)) then
    d.map (fun p => if p.1 = k then (k, v) else p)
  else d ++ [(k, v)]

/-- `d.update(e)` on Python dicts. -/
def dictUpdate (d e : List (String × String)) : List (String × String) :=
  e.foldl (fun acc p => dictSet acc p.1 p.2) d

/-- `MirCrewClient._authenticated_get`: reject when unauthenticated, merge
the session cookies with the caller's (caller wins), issue the request,
translate `httpx.HTTPError` into `NetworkError`.  The second component is
the list of requests actually sent. -/
def authGet (st : ClientState) (env : OpEnv) (n : Nat) (url : String)
    (params : List (String × String)) (callerCookies : List (String × String)) :
    Except MirErr Html × List NetRequest :=
  if !st.authenticated then
    (.error (.authenticationError "Not authenticated. Call authenticate() first."), [])
  else
    let cookies := dictUpdate (getAuthCookies st) callerCookies
    let req : NetRequest :=
      { method := "GET", url := url, params := params, body := [], cookies := cookies }
    match env.net n req with
    | .ok page => (.ok page, [req])
    | .httpError m =>
      (.error (.networkError ("Network error during GET request: " ++ m)), [req])

/-- `MirCrewClient._authenticated_post` (same cookie merge as the GET). -/
def authPost (st : ClientState) (env : OpEnv) (n : Nat) (url : String)
    (body : List (String × String)) (callerCookies : List (String × String)) :
    Except MirErr Html × List NetRequest :=
  if !st.authenticated then
    (.error (.authenticationError "Not authenticated. Call authenticate() first."), [])
  else
    let cookies := dictUpdate (getAuthCookies st) callerCookies
    let req : NetRequest :=
      { method := "POST", url := url, params := [], body := body, cookies := cookies }
    match env.net n req with
    | .ok page => (.ok page, [req])
    | .httpError m =>
      (.error (.networkError ("Network error during POST request: " ++ m)), [req])

/-! ## `client.py`: domain operations -/

/-- `MirCrewClient.search_movie(title)`: empty or whitespace-only titles
short-circuit to an empty list before any network interaction. -/
def searchMovie (st : ClientState) (env : OpEnv) (title : String) :
    Except MirErr (List MovieSearchResult) × List NetRequest :=
  if decide (title = "") || decide (pyStrip title = "") then (.ok [], [])
  else
    match authGet st env 0 (BASE_URL ++ "/search.php")
        [("keywords", pyStrip title), ("sf", "titleonly"), ("sr", "topics")] [] with
    | (.ok page, tr) => (.ok (parseSearchResults page BASE_URL), tr)
    | (.error e, tr) => (.error e, tr)

/-- `MirCrewClient.get_movie_details(movie_id)`. -/
def getMovieDetails (st : ClientState) (env : OpEnv) (movieId : String) :
    Except MirErr MovieDetails × List NetRequest :=
  if decide (movieId = "") || decide (pyStrip movieId = "") then
    (.error (.movieNotFoundError "Movie ID cannot be empty"), [])
  else if !(pyIsDigit (pyStrip movieId)) then
    (.error (.movieNotFoundError ("Invalid movie ID: " ++ movieId ++ ". Movie ID must be numeric.")), [])
  else
    match authGet st env 0 (BASE_URL ++ "/viewtopic.php") [("t", pyStrip movieId)] [] with
    | (.error (.networkError m), tr) =>
      -- `except NetworkError`: remap a disguised 404 to MovieNotFoundError.
      if strContains m "404" || strContains (strToLower m) "not found" then
        (.error (.movieNotFoundError ("Movie with ID " ++ movieId ++ " not found")), tr)
      else (.error (.networkError m), tr)
    | (.error e, tr) => (.error e, tr)
    | (.ok page, tr) =>
      if strContains (strToLower page.raw) "does not exist"
          || strContains (strToLower page.raw) "not found" then
        (.error (.movieNotFoundError ("Movie with ID " ++ movieId ++ " not found")), tr)
      else
        let details := parseMovieDetails page (pyStrip movieId) BASE_URL
        if details.title = "" then
          (.error (.movieNotFoundError ("Movie with ID " ++ movieId ++ " not found or has no title")), tr)
        else (.ok details, tr)

/-- The `id=re.compile(r"lnk_thanks_post\d+")` attribute match. -/
def thanksIdAt (l : List Char) : Bool :=
  "lnk_thanks_post".data.isPrefixOf l &&
    (match l.drop 15 with | c :: _ => c.isDigit | [] => false)

/-- Attribute search of the thanks anchor. -/
def hasThanksId (s : String) : Bool := anyPosition thanksIdAt s.data

/-- `MirCrewClient.get_magnet_link(movie_id)`: validation, topic fetch,
thanks-action round trip (a plain `client.get` with only the session
cookies, whose transport errors fall into the catch-all), re-fetch, magnet
parse and final scheme validation. -/
def getMagnetLink (st : ClientState) (env : OpEnv) (movieId : String) :
    Except MirErr String × List NetRequest :=
  if decide (movieId = "") || decide (pyStrip movieId = "") then
    (.error (.movieNotFoundError "Movie ID cannot be empty"), [])
  else if !(pyIsDigit (pyStrip movieId)) then
    (.error (.movieNotFoundError ("Invalid movie ID: " ++ movieId ++ ". Movie ID must be numeric.")), [])
  else
    let mid := pyStrip movieId
    let topicUrl := BASE_URL ++ "/viewtopic.php"
    match authGet st env 0 topicUrl [("t", mid)] [] with
    | (.error (.networkError m), tr) =>
      if strContains m "404" || strContains (strToLower m) "not found" then
        (.error (.movieNotFoundError ("Movie with ID " ++ mid ++ " not found")), tr)
      else (.error (.networkError m), tr)
    | (.error e, tr) => (.error e, tr)
    | (.ok page, tr) =>
      if strContains (strToLower page.raw) "does not exist"
          || strContains (strToLower page.raw) "not found" then
        (.error (.movieNotFoundError ("Movie with ID " ++ mid ++ " not found")), tr)
      else
        let thanksLink := page.anchors.find?
          (fun a => match a.idAttr with | some i => hasThanksId i | none => false)
        let step2 : Except String Unit × List NetRequest :=
          match thanksLink with
          | some a =>
            (match a.href with
             | some href0 =>
               if !(href0 = "") then
                 let href1 :=
                   if strStartsWith href0 "http" then href0
                   else BASE_URL ++ "/"
                     ++ (if strStartsWith href0 "./" then (⟨href0.data.drop 2⟩ : String) else href0)
                 let req : NetRequest :=
                   { method := "GET", url := href1, params := [], body := [],
                     cookies := getAuthCookies st }
                 (match env.net 1 req with
                  | .ok _ => (.ok (), [req])
                  | .httpError m => (.error m, [req]))
               else (.ok (), [])
             | none => (.ok (), []))
          | none => (.ok (), [])
        match step2 with
        | (.error m, tr2) =>
          -- an `httpx.HTTPError` here is caught by the catch-all only
          (.error (.mirCrewError ("Unexpected error during magnet link retrieval: " ++ m)), tr ++ tr2)
        | (.ok _, tr2) =>
          match authGet st env (1 + tr2.length) topicUrl [("t", mid)] [] with
          | (.error (.networkError m), tr3) =>
            if strContains m "404" || strContains (strToLower m) "not found" then
              (.error (.movieNotFoundError ("Movie with ID " ++ mid ++ " not found")), tr ++ tr2 ++ tr3)
            else (.error (.networkError m), tr ++ tr2 ++ tr3)
          | (.error e, tr3) => (.error e, tr ++ tr2 ++ tr3)
          | (.ok page2, tr3) =>
            match parseMagnetLink page2 with
            | .error e => (.error e, tr ++ tr2 ++ tr3)
            | .ok uri =>
              if !(strStartsWith uri "magnet:?") then
                (.error (.parsingError ("Invalid magnet URI format: " ++ uri)), tr ++ tr2 ++ tr3)
              else (.ok uri, tr ++ tr2 ++ tr3)

/-! ## Specification-side definitions

These follow the wording of the specification and are compared with the
embedded code. -/

/-- Deduplication as the spec words it: keep the first occurrence of each
topic id, in first-seen order. -/
def dedupById : List MovieSearchResult → List MovieSearchResult
  | [] => []
  | r :: rest => r :: dedupById (rest.filter (fun x => !(decide (x.id = r.id))))
termination_by l => l.length
decreasing_by
  simp only [List.length_cons]
  exact Nat.lt_succ_of_le (List.length_filter_le _ _)

/-- Search extraction as the spec words it: per-anchor extraction over the
topic-matching anchors, then first-occurrence deduplication by id. -/
def specSearchResults (h : Html) (baseUrl : String) : List MovieSearchResult :=
  dedupById ((h.anchors.filter hrefFilter).filterMap (anchorCandidate baseUrl))

/-- Description as the spec words it: first paragraph of the post body whose
stripped text exceeds 50 characters; else the first line of the raw content
exceeding 50 characters; else the empty string. -/
def specDescription (h : Html) : String :=
  let pc := postContentOf h
  let paras := match pc with | some d => d.paragraphs | none => []
  let raw := match pc with | some d => d.rawText | none => ""
  match paras.find? (fun p => decide (50 < (pyStrip p).length)) with
  | some p => pyStrip p
  | none =>
    match (splitNl raw).find? (fun part => decide (50 < (pyStrip part).length)) with
    | some part => pyStrip part
    | none => ""

/-- No two adjacent whitespace characters. -/
def noAdjWs : List Char → Bool
  | a :: b :: t => !(isPySpace a && isPySpace b) && noAdjWs (b :: t)
  | _ => true

/-- The normal form claimed for the optional metadata fields: non-empty, no
leading or trailing whitespace, and every internal whitespace run collapsed
to a single space. -/
def isCleanField (s : String) : Prop :=
  s.data ≠ [] ∧
  (∀ c, s.data.head? = some c → isPySpace c = false) ∧
  (∀ c, s.data.getLast? = some c → isPySpace c = false) ∧
  noAdjWs s.data = true ∧
  (∀ c ∈ s.data, isPySpace c = true → c = ' ')

/-! ## Concrete documents, states and environments used by the
counterexamples and witnesses -/

/-- A document with no recognised elements at all. -/
def emptyHtml : Html :=
  { raw := "", anchors := [], flatText := "", topicTitle := none, titleTag := none,
    contentDiv := none, postbodyDiv := none, authorP := none,
    formTokenInput := none, creationTimeInput := none, loginFormAction := none }

/-- A freshly constructed client session. -/
def st0 : ClientState :=
  { session_id := none, user_id := none, autologin_key := none, authenticated := false }

/-- A login page carrying both form tokens and the login form. -/
def loginPageHtml : Html :=
  { emptyHtml with
      formTokenInput := some (some "tok123"),
      creationTimeInput := some (some "1700000000"),
      loginFormAction := some "./ucp.php?mode=login&sid=abcd" }

/-- A handshake whose POST goes through but whose cookie jar holds the
anonymous user id "1": the credential check fails after the token fields
were already assigned. -/
def env1 : AuthEnv :=
  { loginPage := .ok loginPageHtml, postOutcome := .ok (),
    jarSid := some "sessid-1", jarUid := some "1", jarK := none }

/-- A handshake that succeeds although the autologin cookie is absent. -/
def env2 : AuthEnv :=
  { loginPage := .ok loginPageHtml, postOutcome := .ok (),
    jarSid := some "sessid-2", jarUid := some "2", jarK := none }

/-- A page whose first magnet anchor is not the `ABC123` one. -/
def ex8 : Html :=
  { emptyHtml with
      anchors :=
        [ { idAttr := none, href := some "magnet:?xt=urn:btih:XYZ", text := "first" },
          { idAttr := none, href := some "magnet:?xt=urn:btih:ABC123", text := "second" } ] }

/-- A page whose only magnet anchor is the `ABC123` one. -/
def ex8ok : Html :=
  { emptyHtml with
      anchors := [ { idAttr := none, href := some "magnet:?xt=urn:btih:ABC123", text := "a" } ] }

/-- An 80-character paragraph. -/
def para80 : String := ⟨List.replicate 80 'a'⟩

/-- A 10-character paragraph. -/
def para10 : String := "tiny text."

/-- The C6 scenario document: a post body holding a 10-character and an
80-character paragraph. -/
def scenarioHtml : Html :=
  { emptyHtml with contentDiv := some { paragraphs := [para10, para80], rawText := "" } }

/-- A post body whose raw content carries a `Year: 1964` metadata line. -/
def yearHtml : Html :=
  { emptyHtml with contentDiv := some { paragraphs := [], rawText := "Year: 1964" } }

/-- An authenticated session with all three cookies. -/
def stW : ClientState :=
  { session_id := some "S1", user_id := some "7", autologin_key := some "K1",
    authenticated := true }

/-- Caller cookies colliding with the session id cookie. -/
def callerW : List (String × String) := [("phpbb3_12hgm_sid", "CALLER")]

/-- A network oracle that always fails (the claims using it never look at
the outcome). -/
def envFail : OpEnv := { net := fun _ _ => .httpError "boom" }

/-! ## Helper lemmas: stripping and whitespace collapsing -/

theorem collapseWs_ws_ws {a b : Char} {t : List Char} (ha : isPySpace a = true)
    (hb : isPySpace b = true) : collapseWs (a :: b :: t) = collapseWs (b :: t) := by
  simp [collapseWs, ha, hb]

theorem collapseWs_ws_not {a b : Char} {t : List Char} (ha : isPySpace a = true)
    (hb : isPySpace b = false) : collapseWs (a :: b :: t) = ' ' :: collapseWs (b :: t) := by
  simp [collapseWs, ha, hb]

theorem collapseWs_cons_not {a : Char} {t : List Char} (h : isPySpace a = false) :
    collapseWs (a :: t) = a :: collapseWs t := by
  cases t with
  | nil => simp [collapseWs, h]
  | cons b t2 => simp [collapseWs, h]

theorem dropWhile_head_false (p : Char → Bool) (l : List Char) :
    ∀ c, (l.dropWhile p).head? = some c → p c = false := by
  induction l with
  | nil => intro c h; simp [List.dropWhile] at h
  | cons a t ih =>
    intro c h
    by_cases hp : p a = true
    · rw [List.dropWhile_cons, if_pos hp] at h
      exact ih c h
    · rw [List.dropWhile_cons, if_neg hp] at h
      simp only [List.head?_cons, Option.some.injEq] at h
      subst h
      exact Bool.eq_false_iff.mpr hp

theorem getLast?_dropWhile_of_ne_nil (p : Char → Bool) (l : List Char)
    (h : l.dropWhile p ≠ []) : (l.dropWhile p).getLast? = l.getLast? := by
  induction l with
  | nil => simp [List.dropWhile] at h
  | cons a t ih =>
    by_cases hp : p a = true
    · rw [List.dropWhile_cons, if_pos hp] at h ⊢
      have hne : t.dropWhile p ≠ [] := h
      have htne : t ≠ [] := by
        intro hnil
        subst hnil
        simp [List.dropWhile] at hne
      rw [ih hne]
      cases t with
      | nil => exact absurd rfl htne
      | cons b t2 => exact List.getLast?_cons_cons.symm
    · rw [List.dropWhile_cons, if_neg hp]

theorem pyStripL_head (l : List Char) :
    ∀ c, (pyStripL l).head? = some c → isPySpace c = false := by
  intro c h
  unfold pyStripL at h
  rw [List.head?_reverse] at h
  have hne : ((l.dropWhile isPySpace).reverse.dropWhile isPySpace) ≠ [] := by
    intro hnil
    rw [hnil] at h
    simp at h
  rw [getLast?_dropWhile_of_ne_nil _ _ hne, List.getLast?_reverse] at h
  exact dropWhile_head_false isPySpace _ c h

theorem pyStripL_getLast (l : List Char) :
    ∀ c, (pyStripL l).getLast? = some c → isPySpace c = false := by
  intro c h
  unfold pyStripL at h
  rw [List.getLast?_reverse] at h
  exact dropWhile_head_false isPySpace _ c h

theorem collapseWs_ne_nil (l : List Char) (h : l ≠ []) : collapseWs l ≠ [] := by
  induction l with
  | nil => exact absurd rfl h
  | cons a t ih =>
    cases t with
    | nil =>
      by_cases ha : isPySpace a = true <;> simp [collapseWs, ha]
    | cons b t2 =>
      have ihne := ih (by simp)
      by_cases ha : isPySpace a = true
      · by_cases hb : isPySpace b = true
        · rw [collapseWs_ws_ws ha hb]; exact ihne
        · rw [collapseWs_ws_not ha (Bool.eq_false_iff.mpr hb)]; simp
      · rw [collapseWs_cons_not (Bool.eq_false_iff.mpr ha)]; simp

theorem mem_collapseWs_space (l : List Char) :
    ∀ c ∈ collapseWs l, isPySpace c = true → c = ' ' := by
  induction l with
  | nil => intro c hc; simp [collapseWs] at hc
  | cons a t ih =>
    intro c hc hsp
    cases t with
    | nil =>
      by_cases ha : isPySpace a = true
      · rw [show collapseWs [a] = [' '] by simp [collapseWs, ha]] at hc
        exact List.mem_singleton.mp hc
      · rw [show collapseWs [a] = [a] by simp [collapseWs, ha]] at hc
        rw [List.mem_singleton.mp hc] at hsp
        exact absurd hsp (by simp [ha])
    | cons b t2 =>
      by_cases ha : isPySpace a = true
      · by_cases hb : isPySpace b = true
        · rw [collapseWs_ws_ws ha hb] at hc
          exact ih c hc hsp
        · rw [collapseWs_ws_not ha (Bool.eq_false_iff.mpr hb)] at hc
          rcases List.mem_cons.mp hc with hc | hc
          · exact hc
          · exact ih c hc hsp
      · rw [collapseWs_cons_not (Bool.eq_false_iff.mpr ha)] at hc
        rcases List.mem_cons.mp hc with hc | hc
        · rw [hc] at hsp; exact absurd hsp (by simp [ha])
        · exact ih c hc hsp

theorem noAdjWs_cons_of_head {a : Char} {l : List Char} (ha : isPySpace a = false)
    (hl : noAdjWs l = true) : noAdjWs (a :: l) = true := by
  cases l with
  | nil => rfl
  | cons b t => simp [noAdjWs, ha, hl]

theorem noAdjWs_collapseWs (l : List Char) : noAdjWs (collapseWs l) = true := by
  induction l with
  | nil => rfl
  | cons a t ih =>
    cases t with
    | nil =>
      by_cases ha : isPySpace a = true
      · rw [show collapseWs [a] = [' '] by simp [collapseWs, ha]]; rfl
      · rw [show collapseWs [a] = [a] by simp [collapseWs, ha]]; rfl
    | cons b t2 =>
      by_cases ha : isPySpace a = true
      · by_cases hb : isPySpace b = true
        · rw [collapseWs_ws_ws ha hb]; exact ih
        · have hb' : isPySpace b = false := Bool.eq_false_iff.mpr hb
          rw [collapseWs_ws_not ha hb']
          rw [collapseWs_cons_not hb'] at ih ⊢
          simp [noAdjWs, hb', ih]
      · have ha' : isPySpace a = false := Bool.eq_false_iff.mpr ha
        rw [collapseWs_cons_not ha']
        exact noAdjWs_cons_of_head ha' ih

theorem getLast?_collapseWs (l : List Char)
    (h : ∀ c, l.getLast? = some c → isPySpace c = false) :
    ∀ c, (collapseWs l).getLast? = some c → isPySpace c = false := by
  induction l with
  | nil => intro c hc; simp [collapseWs] at hc
  | cons a t ih =>
    intro c hc
    cases t with
    | nil =>
      by_cases ha : isPySpace a = true
      · exact absurd (h a rfl) (by simp [ha])
      · rw [show collapseWs [a] = [a] by simp [collapseWs, ha]] at hc
        simp only [List.getLast?_singleton, Option.some.injEq] at hc
        rw [← hc]
        exact Bool.eq_false_iff.mpr ha
    | cons b t2 =>
      have htail : ∀ c, (b :: t2).getLast? = some c → isPySpace c = false := by
        intro d hd
        exact h d (by rw [List.getLast?_cons_cons]; exact hd)
      by_cases ha : isPySpace a = true
      · by_cases hb : isPySpace b = true
        · rw [collapseWs_ws_ws ha hb] at hc
          exact ih htail c hc
        · rw [collapseWs_ws_not ha (Bool.eq_false_iff.mpr hb)] at hc
          have hne := collapseWs_ne_nil (b :: t2) (by simp)
          cases hcc : collapseWs (b :: t2) with
          | nil => exact absurd hcc hne
          | cons d t3 =>
            rw [hcc, List.getLast?_cons_cons] at hc
            rw [hcc] at ih
            exact ih htail c hc
      · rw [collapseWs_cons_not (Bool.eq_false_iff.mpr ha)] at hc
        have hne := collapseWs_ne_nil (b :: t2) (by simp)
        cases hcc : collapseWs (b :: t2) with
        | nil => exact absurd hcc hne
        | cons d t3 =>
          rw [hcc, List.getLast?_cons_cons] at hc
          rw [hcc] at ih
          exact ih htail c hc

theorem cleanFieldValue_clean (g : List Char) (s : String)
    (h : cleanFieldValue g = some s) : isCleanField s := by
  simp only [cleanFieldValue] at h
  split at h
  · exact absurd h (by simp)
  · rename_i hv
    injection h with h'
    have hdata : s.data = collapseWs (pyStripL g) := by rw [← h']
    have hne : collapseWs (pyStripL g) ≠ [] := by
      intro hnil
      rw [hnil] at hv
      exact hv rfl
    have hstrip_ne : pyStripL g ≠ [] := by
      intro hnil
      rw [hnil] at hne
      exact hne rfl
    refine ⟨by rw [hdata]; exact hne, ?_, ?_, ?_, ?_⟩
    · intro c hc
      rw [hdata] at hc
      cases hsg : pyStripL g with
      | nil => exact absurd hsg hstrip_ne
      | cons a t =>
        have ha : isPySpace a = false := pyStripL_head g a (by rw [hsg]; rfl)
        rw [hsg, collapseWs_cons_not ha] at hc
        simp only [List.head?_cons, Option.some.injEq] at hc
        rw [← hc]
        exact ha
    · intro c hc
      rw [hdata] at hc
      exact getLast?_collapseWs (pyStripL g) (pyStripL_getLast g) c hc
    · rw [hdata]; exact noAdjWs_collapseWs _
    · intro c hc hsp
      rw [hdata] at hc
      exact mem_collapseWs_space _ c hc hsp

theorem extractField_clean (finder : List Char → Option (List Char)) (text : String)
    (s : String) (h : extractField finder text = some s) : isCleanField s := by
  unfold extractField at h
  cases hf : finder text.data with
  | none => rw [hf] at h; exact absurd h (by simp)
  | some g => rw [hf] at h; exact cleanFieldValue_clean g s h

/-- C10: every value of the four optional metadata fields of a parsed
`MovieDetails` is either absent or a non-empty string with no leading or
trailing whitespace and all internal whitespace runs collapsed to single
spaces. -/
theorem movieDetails_optional_fields_normalized (h : Html) (movieId baseUrl : String) :
    (∀ s, (parseMovieDetails h movieId baseUrl).year = some s → isCleanField s) ∧
    (∀ s, (parseMovieDetails h movieId baseUrl).genre = some s → isCleanField s) ∧
    (∀ s, (parseMovieDetails h movieId baseUrl).quality = some s → isCleanField s) ∧
    (∀ s, (parseMovieDetails h movieId baseUrl).size = some s → isCleanField s) :=
  ⟨fun s hs => extractField_clean findYear _ s hs,
   fun s hs => extractField_clean findGenre _ s hs,
   fun s hs => extractField_clean findQuality _ s hs,
   fun s hs => extractField_clean findSize _ s hs⟩

/-- Witness for C10 at the `Year: 1964` metadata scenario. -/
theorem movieDetails_optional_fields_normalized_witness :
    (parseMovieDetails yearHtml "1" BASE_URL).year = some "1964" ∧ isCleanField "1964" :=
  ⟨by rfl,
   (movieDetails_optional_fields_normalized yearHtml "1" BASE_URL).1 "1964" (by rfl)⟩

/-! ## Helper lemmas: the magnet tiers -/

theorem isPrefixOf_append_self (p q : List Char) : p.isPrefixOf (p ++ q) = true := by
  rw [List.isPrefixOf_iff_prefix]
  exact List.prefix_append p q


theorem scanPositions_some (step : List Char → Option (List Char)) (l m : List Char)
    (h : scanPositions step l = some m) : ∃ l2, step l2 = some m := by
  induction l with
  | nil => exact ⟨[], h⟩
  | cons c rest ih =>
    cases hs : step (c :: rest) with
    | some r =>
      refine ⟨c :: rest, hs.trans ?_⟩
      simp only [scanPositions, hs] at h
      rw [h]
    | none =>
      simp only [scanPositions, hs] at h
      exact ih h

theorem tier1_ok_prefix (h : Html) (s : String) (ht : tier1 h = some s) :
    strStartsWith s "magnet:?" = true := by
  cases hf : findMagnetAnchor h.anchors with
  | none => simp [tier1, hf] at ht
  | some a =>
    simp only [tier1, hf] at ht
    by_cases hp : strStartsWith (match a.href with | some u => u | none => "") "magnet:?" = true
    · rw [if_pos hp] at ht
      injection ht with ht'
      rw [← ht']
      exact hp
    · rw [if_neg hp] at ht
      exact absurd ht (by simp)

theorem magnetTextAt_shape (l m : List Char) (h : magnetTextAt l = some m) :
    ∃ r, m = "magnet:?xt=urn:btih:".data ++ r := by
  unfold magnetTextAt at h
  by_cases hp : "magnet:?xt=urn:btih:".data.isPrefixOf l = true
  · rw [if_pos hp] at h
    cases hd : l.drop 20 with
    | nil => simp [hd] at h
    | cons c r =>
      simp only [hd] at h
      by_cases ha : isAsciiAlnum c = true
      · rw [if_pos ha] at h
        injection h with h'
        exact ⟨_, h'.symm⟩
      · rw [if_neg ha] at h
        exact absurd h (by simp)
  · rw [if_neg hp] at h
    exact absurd h (by simp)

theorem magnet20_split :
    "magnet:?xt=urn:btih:".data = "magnet:?".data ++ "xt=urn:btih:".data := by decide

theorem tier2_ok_prefix (h : Html) (s : String) (ht : tier2 h = some s) :
    strStartsWith s "magnet:?" = true := by
  unfold tier2 at ht
  cases hs : scanPositions magnetTextAt h.flatText.data with
  | none => rw [hs] at ht; exact absurd ht (by simp)
  | some m =>
    rw [hs] at ht
    have ht2 : some (⟨m⟩ : String) = some s := ht
    injection ht2 with ht'
    obtain ⟨l2, hl2⟩ := scanPositions_some magnetTextAt _ m hs
    obtain ⟨r, hr⟩ := magnetTextAt_shape l2 m hl2
    have hdata : s.data = "magnet:?".data ++ ("xt=urn:btih:".data ++ r) := by
      rw [← ht', hr, magnet20_split, List.append_assoc]
    unfold strStartsWith
    rw [hdata]
    exact isPrefixOf_append_self _ _

theorem magnetHrefAt_shape (l m : List Char) (h : magnetHrefAt l = some m) :
    ∃ r, m = "magnet:?".data ++ r := by
  simp only [magnetHrefAt] at h
  by_cases hp : "magnet:?".data.isPrefixOf l = true
  · rw [if_pos hp] at h
    by_cases he : ((l.drop 8).takeWhile hrefChar).isEmpty = true
    · rw [if_pos he] at h
      exact absurd h (by simp)
    · rw [if_neg he] at h
      injection h with h'
      exact ⟨_, h'.symm⟩
  · rw [if_neg hp] at h
    exact absurd h (by simp)

theorem tier3_ok_prefix (l : List Anchor) (s : String) (ht : tier3 l = some s) :
    strStartsWith s "magnet:?" = true := by
  induction l with
  | nil => exact absurd ht (by simp [tier3])
  | cons a rest ih =>
    simp only [tier3] at ht
    by_cases hc : strContains (match a.href with | some h => h | none => "") "magnet:" = true
    · rw [if_pos hc] at ht
      cases hs : scanPositions magnetHrefAt (match a.href with | some h => h | none => "").data with
      | none =>
        rw [hs] at ht
        exact ih ht
      | some m =>
        rw [hs] at ht
        have ht2 : some (⟨m⟩ : String) = some s := ht
        injection ht2 with ht'
        obtain ⟨l2, hl2⟩ := scanPositions_some magnetHrefAt _ m hs
        obtain ⟨r, hr⟩ := magnetHrefAt_shape l2 m hl2
        have hdata : s.data = "magnet:?".data ++ r := by rw [← ht', hr]
        unfold strStartsWith
        rw [hdata]
        exact isPrefixOf_append_self _ _
    · rw [if_neg hc] at ht
      exact ih ht

/-- C4: `parse_magnet_link` either returns a string carrying the magnet
scheme prefix, or fails with the `ParsingError` whose message mentions
"magnet link not found" (case-insensitively), and it fails exactly when all
three search tiers miss. -/
theorem parseMagnetLink_prefix_or_not_found (h : Html) :
    (∀ s, parseMagnetLink h = .ok s → strStartsWith s "magnet:?" = true) ∧
    (∀ e, parseMagnetLink h = .error e →
      e = .parsingError magnetNotFoundMsg ∧
      tier1 h = none ∧ tier2 h = none ∧ tier3 h.anchors = none) ∧
    strContains (strToLower magnetNotFoundMsg) "magnet link not found" = true := by
  refine ⟨?_, ?_, by decide⟩
  · intro s hs
    cases h1 : tier1 h with
    | some u =>
      simp only [parseMagnetLink, h1] at hs
      injection hs with hs'
      exact hs' ▸ tier1_ok_prefix h u h1
    | none =>
      cases h2 : tier2 h with
      | some u =>
        simp only [parseMagnetLink, h1, h2] at hs
        injection hs with hs'
        exact hs' ▸ tier2_ok_prefix h u h2
      | none =>
        cases h3 : tier3 h.anchors with
        | some u =>
          simp only [parseMagnetLink, h1, h2, h3] at hs
          injection hs with hs'
          exact hs' ▸ tier3_ok_prefix h.anchors u h3
        | none =>
          simp [parseMagnetLink, h1, h2, h3] at hs
  · intro e he
    cases h1 : tier1 h with
    | some u => simp [parseMagnetLink, h1] at he
    | none =>
      cases h2 : tier2 h with
      | some u => simp [parseMagnetLink, h1, h2] at he
      | none =>
        cases h3 : tier3 h.anchors with
        | some u => simp [parseMagnetLink, h1, h2, h3] at he
        | none =>
          simp only [parseMagnetLink, h1, h2, h3] at he
          injection he with he'
          exact ⟨he'.symm, rfl, rfl, rfl⟩

/-- Witness for C4 at a page with no magnet content. -/
theorem parseMagnetLink_prefix_or_not_found_witness :
    parseMagnetLink emptyHtml = .error (.parsingError magnetNotFoundMsg) ∧
    (MirErr.parsingError magnetNotFoundMsg = .parsingError magnetNotFoundMsg ∧
     tier1 emptyHtml = none ∧ tier2 emptyHtml = none ∧ tier3 emptyHtml.anchors = none) :=
  ⟨by rfl,
   (parseMagnetLink_prefix_or_not_found emptyHtml).2.1 (.parsingError magnetNotFoundMsg) (by rfl)⟩

/-! ## Helper lemmas: description extraction -/

theorem firstOver50_eq_find (l : List String) :
    firstOver50 l =
      (match l.find? (fun p => decide (50 < (pyStrip p).length)) with
       | some p => pyStrip p
       | none => "") := by
  induction l with
  | nil => rfl
  | cons p rest ih =>
    by_cases hp : 50 < (pyStrip p).length
    · simp [firstOver50, List.find?_cons, hp]
    · simp [firstOver50, List.find?_cons, hp, ih]

theorem pyStrip_ne_empty_of_long {p : String} (hp : 50 < (pyStrip p).length) :
    pyStrip p ≠ "" := by
  intro h0
  rw [h0] at hp
  simp [String.length] at hp

/-- C6: the description of a parsed `MovieDetails` is the first post-body
paragraph whose stripped text exceeds 50 characters, else the first line of
the raw content exceeding 50 characters, else the empty string; in the
10/80-character two-paragraph scenario it is the 80-character paragraph. -/
theorem movieDetails_description_spec (h : Html) (movieId baseUrl : String) :
    (parseMovieDetails h movieId baseUrl).description = specDescription h ∧
    (parseMovieDetails scenarioHtml "1" BASE_URL).description = para80 := by
  constructor
  · show (match postContentOf h with
          | none => ""
          | some d =>
            let d1 := firstOver50 d.paragraphs
            if d1 = "" then firstOver50 (splitNl d.rawText) else d1) =
        specDescription h
    cases hpc : postContentOf h with
    | none =>
      simp only [specDescription, hpc]
      decide
    | some d =>
      simp only [specDescription, hpc]
      rw [firstOver50_eq_find d.paragraphs, firstOver50_eq_find (splitNl d.rawText)]
      cases hf : d.paragraphs.find? (fun p => decide (50 < (pyStrip p).length)) with
      | some p =>
        have hp : 50 < (pyStrip p).length := by
          have := List.find?_some hf
          simpa using this
        simp [pyStrip_ne_empty_of_long hp]
      | none => simp
  · rfl

/-! ## C7: empty search titles short-circuit -/

/-- C7: an empty or whitespace-only title makes `search_movie` return an
empty result list with no network request. -/
theorem searchMovie_empty_title (st : ClientState) (env : OpEnv) (title : String)
    (h : pyStrip title = "") :
    searchMovie st env title = (.ok [], []) := by
  unfold searchMovie
  rw [h]
  simp

/-- Witness for C7 at a whitespace-only title. -/
theorem searchMovie_empty_title_witness :
    pyStrip "   " = "" ∧ searchMovie st0 envFail "   " = (.ok [], []) :=
  ⟨by decide, searchMovie_empty_title st0 envFail "   " (by decide)⟩

/-! ## C3: invalid movie ids are rejected before any network call -/

/-- C3: for an id that is empty, whitespace-only, or not all-numeric after
stripping, both `get_movie_details` and `get_magnet_link` fail with
`MovieNotFoundError` and issue no network request. -/
theorem invalid_id_rejected_before_network (st : ClientState) (env : OpEnv) (movieId : String)
    (h : pyStrip movieId = "" ∨ pyIsDigit (pyStrip movieId) = false) :
    (∃ m, (getMovieDetails st env movieId).1 = .error (.movieNotFoundError m)) ∧
    (getMovieDetails st env movieId).2 = [] ∧
    (∃ m, (getMagnetLink st env movieId).1 = .error (.movieNotFoundError m)) ∧
    (getMagnetLink st env movieId).2 = [] := by
  have hdig : pyIsDigit (pyStrip movieId) = false := by
    rcases h with h | h
    · rw [h]; decide
    · exact h
  by_cases h1 : (decide (movieId = "") || decide (pyStrip movieId = "")) = true
  · exact ⟨⟨"Movie ID cannot be empty", by simp [getMovieDetails, h1]⟩,
      by simp [getMovieDetails, h1],
      ⟨"Movie ID cannot be empty", by simp [getMagnetLink, h1]⟩,
      by simp [getMagnetLink, h1]⟩
  · have h1' := Bool.not_eq_true _ ▸ h1
    exact ⟨⟨"Invalid movie ID: " ++ movieId ++ ". Movie ID must be numeric.",
        by simp [getMovieDetails, h1, hdig]⟩,
      by simp [getMovieDetails, h1, hdig],
      ⟨"Invalid movie ID: " ++ movieId ++ ". Movie ID must be numeric.",
        by simp [getMagnetLink, h1, hdig]⟩,
      by simp [getMagnetLink, h1, hdig]⟩

/-- Witness for C3 at the non-numeric id "12a". -/
theorem invalid_id_rejected_before_network_witness :
    (pyStrip "12a" = "" ∨ pyIsDigit (pyStrip "12a") = false) ∧
    ((∃ m, (getMovieDetails st0 envFail "12a").1 = .error (.movieNotFoundError m)) ∧
     (getMovieDetails st0 envFail "12a").2 = [] ∧
     (∃ m, (getMagnetLink st0 envFail "12a").1 = .error (.movieNotFoundError m)) ∧
     (getMagnetLink st0 envFail "12a").2 = []) :=
  ⟨by decide, invalid_id_rejected_before_network st0 envFail "12a" (by decide)⟩

/-! ## C8: the magnet round trip -/

/-- C8 counterexample: a page that contains the
`<a href="magnet:?xt=urn:btih:ABC123">` anchor but whose first magnet
anchor is a different one; `parse_magnet_link` returns the other link, so
the claim as stated (any document containing the anchor round-trips it)
is false. -/
theorem magnet_roundtrip_counterexample :
    (ex8.anchors.any fun a => decide (a.href = some "magnet:?xt=urn:btih:ABC123")) = true ∧
    parseMagnetLink ex8 = .ok "magnet:?xt=urn:btih:XYZ" ∧
    parseMagnetLink ex8 ≠ .ok "magnet:?xt=urn:btih:ABC123" := by
  refine ⟨by decide, by rfl, ?_⟩
  intro hco
  have h1 : parseMagnetLink ex8 = .ok "magnet:?xt=urn:btih:XYZ" := by rfl
  rw [h1] at hco
  injection hco with hco'
  exact absurd hco' (by decide)

/-- C8 amended: when the `ABC123` anchor is the first anchor whose href
carries the magnet scheme prefix, `parse_magnet_link` returns exactly that
string (tier 1). -/
theorem magnet_roundtrip_first_anchor (h : Html) (a : Anchor)
    (hfind : findMagnetAnchor h.anchors = some a)
    (hhref : a.href = some "magnet:?xt=urn:btih:ABC123") :
    parseMagnetLink h = .ok "magnet:?xt=urn:btih:ABC123" := by
  have ht : tier1 h = some "magnet:?xt=urn:btih:ABC123" := by
    simp only [tier1, hfind, hhref]
    rw [if_pos (by decide)]
  simp [parseMagnetLink, ht]

/-- Witness for the amended C8 at a single-anchor document. -/
theorem magnet_roundtrip_first_anchor_witness :
    findMagnetAnchor ex8ok.anchors =
      some { idAttr := none, href := some "magnet:?xt=urn:btih:ABC123", text := "a" } ∧
    parseMagnetLink ex8ok = .ok "magnet:?xt=urn:btih:ABC123" :=
  ⟨by decide, magnet_roundtrip_first_anchor ex8ok
      { idAttr := none, href := some "magnet:?xt=urn:btih:ABC123", text := "a" }
      (by decide) (by rfl)⟩

/-! ## Helper lemmas: Python dict model -/

theorem find?_map_set (d : List (String × String)) (k v : String)
    (hany : (d.any fun p => decide (p.1 = k)) = true) :
    (d.map (fun p => if p.1 = k then (k, v) else p)).find? (fun p => decide (p.1 = k))
      = some (k, v) := by
  induction d with
  | nil => simp at hany
  | cons p t ih =>
    by_cases hp : p.1 = k
    · simp [List.find?_cons, hp]
    · have hany2 : (t.any fun p => decide (p.1 = k)) = true := by
        rcases List.any_eq_true.mp hany with ⟨x, hx, hdx⟩
        rcases List.mem_cons.mp hx with hxp | hx2
        · rw [hxp] at hdx
          exact absurd (of_decide_eq_true hdx) hp
        · exact List.any_eq_true.mpr ⟨x, hx2, hdx⟩
      simp [List.find?_cons, hp, ih hany2]

theorem find?_map_set_ne (d : List (String × String)) (k v k2 : String) (hne : k2 ≠ k) :
    (d.map (fun p => if p.1 = k then (k, v) else p)).find? (fun p => decide (p.1 = k2)) =
      d.find? (fun p => decide (p.1 = k2)) := by
  rw [List.find?_map]
  have hcomp : ((fun p : String × String => decide (p.1 = k2)) ∘
      (fun p : String × String => if p.1 = k then (k, v) else p))
      = fun p : String × String => decide (p.1 = k2) := by
    funext x
    by_cases hx : x.1 = k
    · simp [Function.comp, hx]
    · simp [Function.comp, hx]
  rw [hcomp]
  cases hf : d.find? (fun p => decide (p.1 = k2)) with
  | none => rfl
  | some x =>
    have hx : x.1 = k2 := by
      have hs := List.find?_some hf
      simpa using hs
    have hfx : (if x.1 = k then (k, v) else x) = x := by
      rw [if_neg (by rw [hx]; exact hne)]
    simp [hfx]

theorem dictGet_set (d : List (String × String)) (k v k2 : String) :
    dictGet (dictSet d k v) k2 = if k2 = k then some v else dictGet d k2 := by
  unfold dictSet
  by_cases hany : (d.any fun p => decide (p.1 = k)) = true
  · rw [if_pos hany]
    by_cases hk : k2 = k
    · rw [if_pos hk, hk]
      unfold dictGet
      rw [find?_map_set d k v hany]
    · rw [if_neg hk]
      unfold dictGet
      rw [find?_map_set_ne d k v k2 hk]
  · rw [if_neg hany]
    have hnone : d.find? (fun p => decide (p.1 = k)) = none := by
      rw [List.find?_eq_none]
      intro x hx hdec
      exact hany (List.any_eq_true.mpr ⟨x, hx, hdec⟩)
    by_cases hk : k2 = k
    · rw [if_pos hk, hk]
      unfold dictGet
      rw [List.find?_append, hnone]
      simp [List.find?_cons]
    · rw [if_neg hk]
      unfold dictGet
      rw [List.find?_append]
      have htail : ([(k, v)].find? (fun p => decide (p.1 = k2))) = none := by
        have hkk : ¬(k = k2) := fun h => hk h.symm
        simp [List.find?_cons, hkk]
      rw [htail]
      cases d.find? (fun p => decide (p.1 = k2)) <;> rfl

theorem dictGet_none_of_not_mem (t : List (String × String)) (k : String)
    (h : k ∉ t.map Prod.fst) : dictGet t k = none := by
  unfold dictGet
  have hfind : t.find? (fun p => decide (p.1 = k)) = none := by
    rw [List.find?_eq_none]
    intro x hx hdec
    exact h (List.mem_map.mpr ⟨x, hx, by simpa using hdec⟩)
  rw [hfind]

theorem dictGet_update (d e : List (String × String)) (k : String)
    (hnd : (e.map Prod.fst).Nodup) :
    dictGet (dictUpdate d e) k =
      (match dictGet e k with
       | some v => some v
       | none => dictGet d k) := by
  induction e generalizing d with
  | nil => rfl
  | cons p t ih =>
    have hnotin : p.1 ∉ t.map Prod.fst := by
      rw [List.map_cons, List.nodup_cons] at hnd
      exact hnd.1
    have hnd2 : (t.map Prod.fst).Nodup := by
      rw [List.map_cons, List.nodup_cons] at hnd
      exact hnd.2
    show dictGet (dictUpdate (dictSet d p.1 p.2) t) k = _
    rw [ih (dictSet d p.1 p.2) hnd2]
    by_cases hk : k = p.1
    · have htnone : dictGet t k = none := by
        rw [hk]
        exact dictGet_none_of_not_mem t p.1 hnotin
      have hhead : dictGet (p :: t) k = some p.2 := by
        unfold dictGet
        have hpk : p.1 = k := hk.symm
        simp [List.find?_cons, hpk]
      rw [htnone, hhead]
      show dictGet (dictSet d p.1 p.2) k = some p.2
      rw [dictGet_set, if_pos hk]
    · have hhead : dictGet (p :: t) k = dictGet t k := by
        unfold dictGet
        have hpk : ¬(p.1 = k) := fun h => hk h.symm
        simp [List.find?_cons, hpk]
      rw [hhead, dictGet_set, if_neg hk]

theorem authGet_trace (st : ClientState) (env : OpEnv) (n : Nat) (url : String)
    (params caller : List (String × String)) (hauth : st.authenticated = true) :
    (authGet st env n url params caller).2 =
      [{ method := "GET", url := url, params := params, body := [],
         cookies := dictUpdate (getAuthCookies st) caller }] := by
  simp only [authGet, hauth, Bool.not_true, Bool.false_eq_true, if_false]
  generalize env.net n { method := "GET", url := url, params := params, body := [], cookies := dictUpdate (getAuthCookies st) caller } = o
  cases o <;> rfl

theorem authPost_trace (st : ClientState) (env : OpEnv) (n : Nat) (url : String)
    (body caller : List (String × String)) (hauth : st.authenticated = true) :
    (authPost st env n url body caller).2 =
      [{ method := "POST", url := url, params := [], body := body,
         cookies := dictUpdate (getAuthCookies st) caller }] := by
  simp only [authPost, hauth, Bool.not_true, Bool.false_eq_true, if_false]
  generalize env.net n { method := "POST", url := url, params := [], body := body, cookies := dictUpdate (getAuthCookies st) caller } = o
  cases o <;> rfl

/-- C9: every gateway GET/POST issues exactly one request whose cookies are
the session cookies updated by the caller-supplied cookies; on a key
collision the caller value wins, and keys the caller does not set come from
the session cookies. -/
theorem gateway_cookie_merge (st : ClientState) (env : OpEnv) (n : Nat) (url : String)
    (params body caller : List (String × String))
    (hauth : st.authenticated = true) (hnd : (caller.map Prod.fst).Nodup) :
    ((authGet st env n url params caller).2.length = 1 ∧
     ∀ req ∈ (authGet st env n url params caller).2,
       req.cookies = dictUpdate (getAuthCookies st) caller ∧
       ∀ k, dictGet req.cookies k =
         (match dictGet caller k with
          | some v => some v
          | none => dictGet (getAuthCookies st) k)) ∧
    ((authPost st env n url body caller).2.length = 1 ∧
     ∀ req ∈ (authPost st env n url body caller).2,
       req.cookies = dictUpdate (getAuthCookies st) caller ∧
       ∀ k, dictGet req.cookies k =
         (match dictGet caller k with
          | some v => some v
          | none => dictGet (getAuthCookies st) k)) := by
  have hget := authGet_trace st env n url params caller hauth
  have hpost := authPost_trace st env n url body caller hauth
  refine ⟨⟨by rw [hget]; rfl, ?_⟩, ⟨by rw [hpost]; rfl, ?_⟩⟩
  · intro req hreq
    rw [hget] at hreq
    have hr := List.mem_singleton.mp hreq
    subst hr
    exact ⟨rfl, fun k => dictGet_update (getAuthCookies st) caller k hnd⟩
  · intro req hreq
    rw [hpost] at hreq
    have hr := List.mem_singleton.mp hreq
    subst hr
    exact ⟨rfl, fun k => dictGet_update (getAuthCookies st) caller k hnd⟩

/-- Witness for C9: an authenticated session with a colliding caller
cookie. -/
theorem gateway_cookie_merge_witness :
    stW.authenticated = true ∧ (callerW.map Prod.fst).Nodup ∧
    (((authGet stW envFail 0 "u" [] callerW).2.length = 1 ∧
      ∀ req ∈ (authGet stW envFail 0 "u" [] callerW).2,
        req.cookies = dictUpdate (getAuthCookies stW) callerW ∧
        ∀ k, dictGet req.cookies k =
          (match dictGet callerW k with
           | some v => some v
           | none => dictGet (getAuthCookies stW) k)) ∧
     ((authPost stW envFail 0 "u" [] callerW).2.length = 1 ∧
      ∀ req ∈ (authPost stW envFail 0 "u" [] callerW).2,
        req.cookies = dictUpdate (getAuthCookies stW) callerW ∧
        ∀ k, dictGet req.cookies k =
          (match dictGet callerW k with
           | some v => some v
           | none => dictGet (getAuthCookies stW) k))) :=
  ⟨rfl, by decide, gateway_cookie_merge stW envFail 0 "u" [] [] callerW rfl (by decide)⟩

/-! ## Helper lemmas: search-result deduplication -/

theorem dedupById_nil : dedupById [] = [] := by
  rw [dedupById]

theorem dedupById_cons (r : MovieSearchResult) (s : List MovieSearchResult) :
    dedupById (r :: s) = r :: dedupById (s.filter (fun x => !(decide (x.id = r.id)))) := by
  rw [dedupById]

theorem filter_filter_and {α : Type} (p q : α → Bool) (l : List α) :
    (l.filter p).filter q = l.filter (fun a => q a && p a) := by
  induction l with
  | nil => rfl
  | cons a t ih =>
    by_cases hp : p a = true
    · by_cases hq : q a = true <;> simp [List.filter_cons, hp, hq, ih]
    · simp [List.filter_cons, hp, ih]

theorem searchLoop_eq (baseUrl : String) (l : List Anchor) :
    ∀ res : List MovieSearchResult,
      searchLoop baseUrl l res =
        res ++ dedupById ((l.filterMap (anchorCandidate baseUrl)).filter
          (fun r => !(res.any fun x => decide (x.id = r.id)))) := by
  induction l with
  | nil => intro res; simp [searchLoop, dedupById_nil]
  | cons a rest ih =>
    intro res
    cases hc : anchorCandidate baseUrl a with
    | none =>
      simp only [searchLoop, hc]
      rw [ih res]
      simp [List.filterMap_cons, hc]
    | some r =>
      by_cases hmem : (res.any fun x => decide (x.id = r.id)) = true
      · simp only [searchLoop, hc, hmem, if_true]
        rw [ih res]
        have hpredr : (!(res.any fun x => decide (x.id = r.id))) = false := by
          rw [hmem]; rfl
        simp [List.filterMap_cons, hc, List.filter_cons, hpredr]
      · have hmem2 : (res.any fun x => decide (x.id = r.id)) = false :=
          Bool.eq_false_iff.mpr hmem
        have hpredr : (!(res.any fun x => decide (x.id = r.id))) = true := by
          rw [hmem2]; rfl
        simp only [searchLoop, hc, hmem2, Bool.false_eq_true, if_false]
        rw [ih (res ++ [r])]
        have hfun : (fun x : MovieSearchResult =>
              !((res ++ [r]).any fun y => decide (y.id = x.id)))
            = fun x => (!(decide (x.id = r.id))) &&
                (!(res.any fun y => decide (y.id = x.id))) := by
          funext x
          by_cases h1 : x.id = r.id
          · simp [h1, List.any_append]
          · have h1b : ¬(r.id = x.id) := fun hh => h1 hh.symm
            simp [h1, h1b, List.any_append]
        have hrhs : ((a :: rest).filterMap (anchorCandidate baseUrl)).filter
              (fun x => !(res.any fun y => decide (y.id = x.id)))
            = r :: (rest.filterMap (anchorCandidate baseUrl)).filter
              (fun x => !(res.any fun y => decide (y.id = x.id))) := by
          simp [List.filterMap_cons, hc, List.filter_cons, hpredr]
        rw [hrhs, dedupById_cons, hfun, ← filter_filter_and]
        simp [List.append_assoc]

theorem mem_dedupById : ∀ (n : Nat) (l : List MovieSearchResult), l.length ≤ n →
    ∀ x ∈ dedupById l, x ∈ l := by
  intro n
  induction n with
  | zero =>
    intro l hl x hx
    cases l with
    | nil => rw [dedupById_nil] at hx; exact absurd hx (List.not_mem_nil x)
    | cons r t => simp at hl
  | succ n ih =>
    intro l hl x hx
    cases l with
    | nil => rw [dedupById_nil] at hx; exact absurd hx (List.not_mem_nil x)
    | cons r t =>
      rw [dedupById_cons] at hx
      rcases List.mem_cons.mp hx with hx | hx
      · exact hx ▸ List.mem_cons_self r t
      · have hlen : (t.filter (fun x => !(decide (x.id = r.id)))).length ≤ n := by
          have h1 := List.length_filter_le (fun x => !(decide (x.id = r.id))) t
          have h2 : t.length ≤ n := Nat.le_of_succ_le_succ hl
          exact Nat.le_trans h1 h2
        have hmem := ih _ hlen x hx
        exact List.mem_cons_of_mem r (List.mem_of_mem_filter hmem)

theorem nodup_dedupById : ∀ (n : Nat) (l : List MovieSearchResult), l.length ≤ n →
    ((dedupById l).map (fun r => r.id)).Nodup := by
  intro n
  induction n with
  | zero =>
    intro l hl
    cases l with
    | nil => rw [dedupById_nil]; exact List.nodup_nil
    | cons r t => simp at hl
  | succ n ih =>
    intro l hl
    cases l with
    | nil => rw [dedupById_nil]; exact List.nodup_nil
    | cons r t =>
      rw [dedupById_cons, List.map_cons, List.nodup_cons]
      have hlen : (t.filter (fun x => !(decide (x.id = r.id)))).length ≤ n := by
        have h1 := List.length_filter_le (fun x => !(decide (x.id = r.id))) t
        have h2 : t.length ≤ n := Nat.le_of_succ_le_succ hl
        exact Nat.le_trans h1 h2
      refine ⟨?_, ih _ hlen⟩
      intro hmem
      rcases List.mem_map.mp hmem with ⟨x, hx, hxid⟩
      have hxf := mem_dedupById _ _ (le_refl _) x hx
      have hpred := List.of_mem_filter hxf
      rw [hxid] at hpred
      simp at hpred

/-- C5: `parse_search_results` equals the specification extraction (per-
anchor extraction over topic-matching anchors followed by first-occurrence
deduplication by id, preserving first-seen order and first-seen titles),
its output ids are pairwise distinct, and a page with no matching anchors
yields the empty list. -/
theorem searchResults_dedup_spec (h : Html) (baseUrl : String) :
    parseSearchResults h baseUrl = specSearchResults h baseUrl ∧
    ((parseSearchResults h baseUrl).map (fun r => r.id)).Nodup ∧
    (h.anchors.filter hrefFilter = [] → parseSearchResults h baseUrl = []) := by
  have heq : parseSearchResults h baseUrl = specSearchResults h baseUrl := by
    unfold parseSearchResults specSearchResults
    rw [searchLoop_eq baseUrl _ []]
    simp
  refine ⟨heq, ?_, ?_⟩
  · rw [heq]
    unfold specSearchResults
    exact nodup_dedupById _ _ (le_refl _)
  · intro hnil
    unfold parseSearchResults
    rw [hnil]
    rfl

/-- Witness for C5 at a page with no matching anchors. -/
theorem searchResults_dedup_spec_witness :
    emptyHtml.anchors.filter hrefFilter = [] ∧ parseSearchResults emptyHtml "b" = [] :=
  ⟨by rfl, (searchResults_dedup_spec emptyHtml "b").2.2 (by rfl)⟩

/-! ## C1 and C2: the authentication state machine -/

/-- C1 counterexample: a handshake reaching the credential check with the
anonymous cookie jar fails with AuthenticationError, yet the session fields
keep the stale jar values — the state is not cleared. -/
theorem auth_failure_cleared_counterexample :
    (authenticate st0 env1).1
      = .error (.authenticationError "Authentication failed. Please check your credentials.") ∧
    (authenticate st0 env1).2.session_id = some "sessid-1" ∧
    (authenticate st0 env1).2.user_id = some "1" :=
  ⟨rfl, rfl, rfl⟩

/-- C1 amended: a failed `authenticate()` leaves the `authenticated` flag
unchanged, and the three token fields either keep their previous values
(failure before cookie extraction) or hold exactly the cookie-jar values
(failure at the credential check); they are not cleared. -/
theorem auth_failure_state_amended (st : ClientState) (env : AuthEnv) (e : MirErr)
    (hfail : (authenticate st env).1 = .error e) :
    (authenticate st env).2.authenticated = st.authenticated ∧
    (((authenticate st env).2.session_id = st.session_id ∧
      (authenticate st env).2.user_id = st.user_id ∧
      (authenticate st env).2.autologin_key = st.autologin_key) ∨
     ((authenticate st env).2.session_id = env.jarSid ∧
      (authenticate st env).2.user_id = env.jarUid ∧
      (authenticate st env).2.autologin_key = env.jarK)) := by
  cases hlp : env.loginPage with
  | httpError m =>
    simp only [authenticate, hlp]
    simp
  | ok page =>
    simp only [authenticate, hlp] at hfail ⊢
    by_cases htok : (!(truthyOpt (optJoin page.formTokenInput))
        || !(truthyOpt (optJoin page.creationTimeInput))) = true
    · rw [if_pos htok] at hfail ⊢
      simp
    · rw [if_neg htok] at hfail ⊢
      cases hact : page.loginFormAction with
      | none =>
        simp only [hact] at hfail ⊢
        simp
      | some action =>
        simp only [hact] at hfail ⊢
        cases hpost : env.postOutcome with
        | error m =>
          simp only [hpost] at hfail ⊢
          simp
        | ok u =>
          simp only [hpost] at hfail ⊢
          by_cases hcred : (!(truthyOpt env.jarSid) || !(truthyOpt env.jarUid)
              || decide (env.jarUid = some "1")) = true
          · rw [if_pos hcred] at hfail ⊢
            simp
          · rw [if_neg hcred] at hfail
            exact absurd hfail (by simp)

/-- Witness for the amended C1 at the anonymous-jar failure. -/
theorem auth_failure_state_amended_witness :
    (authenticate st0 env1).1
      = .error (.authenticationError "Authentication failed. Please check your credentials.") ∧
    ((authenticate st0 env1).2.authenticated = st0.authenticated ∧
     (((authenticate st0 env1).2.session_id = st0.session_id ∧
       (authenticate st0 env1).2.user_id = st0.user_id ∧
       (authenticate st0 env1).2.autologin_key = st0.autologin_key) ∨
      ((authenticate st0 env1).2.session_id = env1.jarSid ∧
       (authenticate st0 env1).2.user_id = env1.jarUid ∧
       (authenticate st0 env1).2.autologin_key = env1.jarK))) :=
  ⟨by rfl,
   auth_failure_state_amended st0 env1
     (.authenticationError "Authentication failed. Please check your credentials.") (by rfl)⟩

/-- C2 counterexample: a handshake whose jar has a session id and a
non-anonymous user id but no autologin key succeeds and sets
`authenticated`, although not all three tokens are present. -/
theorem auth_iff_three_tokens_counterexample :
    (authenticate st0 env2).1 = .ok true ∧
    (authenticate st0 env2).2.authenticated = true ∧
    (authenticate st0 env2).2.autologin_key = none :=
  ⟨rfl, rfl, rfl⟩

/-- C2 amended: for a handshake that reaches the cookie-extraction step,
`authenticate()` succeeds with `authenticated = true` iff the session-id
and user-id cookies are present and non-empty and the user id is not the
anonymous sentinel "1" (the autologin key plays no role); otherwise it
fails with AuthenticationError and leaves the flag unchanged. -/
theorem auth_success_iff_sid_uid (st : ClientState) (env : AuthEnv) (page : Html)
    (act : String)
    (hlp : env.loginPage = .ok page)
    (htok : truthyOpt (optJoin page.formTokenInput) = true)
    (hct : truthyOpt (optJoin page.creationTimeInput) = true)
    (hact : page.loginFormAction = some act)
    (hpost : env.postOutcome = .ok ()) :
    ((truthyOpt env.jarSid = true ∧ truthyOpt env.jarUid = true ∧ env.jarUid ≠ some "1") →
      ((authenticate st env).1 = .ok true ∧
       (authenticate st env).2.authenticated = true ∧
       (authenticate st env).2.session_id = env.jarSid ∧
       (authenticate st env).2.user_id = env.jarUid ∧
       (authenticate st env).2.autologin_key = env.jarK)) ∧
    (¬(truthyOpt env.jarSid = true ∧ truthyOpt env.jarUid = true ∧ env.jarUid ≠ some "1") →
      ((authenticate st env).1 =
         .error (.authenticationError "Authentication failed. Please check your credentials.") ∧
       (authenticate st env).2.authenticated = st.authenticated)) := by
  constructor
  · rintro ⟨h1, h2, h3⟩
    have hcf : (!(truthyOpt env.jarSid) || !(truthyOpt env.jarUid)
        || decide (env.jarUid = some "1")) = false := by
      rw [h1, h2]
      simp [h3]
    simp only [authenticate, hlp, htok, hct, hact, hpost, hcf]
    simp
  · intro hn
    have hct2 : (!(truthyOpt env.jarSid) || !(truthyOpt env.jarUid)
        || decide (env.jarUid = some "1")) = true := by
      by_cases h1 : truthyOpt env.jarSid = true
      · by_cases h2 : truthyOpt env.jarUid = true
        · by_cases h3 : env.jarUid = some "1"
          · rw [h1, h2]
            simp [h3]
          · exact absurd ⟨h1, h2, h3⟩ hn
        · rw [Bool.eq_false_iff.mpr h2]
          simp
      · rw [Bool.eq_false_iff.mpr h1]
        simp
    simp only [authenticate, hlp, htok, hct, hact, hpost, hct2]
    simp

/-- Witness for the amended C2 at the autologin-free successful handshake. -/
theorem auth_success_iff_sid_uid_witness :
    (env2.loginPage = .ok loginPageHtml ∧
     truthyOpt (optJoin loginPageHtml.formTokenInput) = true ∧
     truthyOpt (optJoin loginPageHtml.creationTimeInput) = true ∧
     loginPageHtml.loginFormAction = some "./ucp.php?mode=login&sid=abcd" ∧
     env2.postOutcome = .ok ()) ∧
    (truthyOpt env2.jarSid = true ∧ truthyOpt env2.jarUid = true ∧ env2.jarUid ≠ some "1") ∧
    ((authenticate st0 env2).1 = .ok true ∧
     (authenticate st0 env2).2.authenticated = true ∧
     (authenticate st0 env2).2.session_id = env2.jarSid ∧
     (authenticate st0 env2).2.user_id = env2.jarUid ∧
     (authenticate st0 env2).2.autologin_key = env2.jarK) := by
  refine ⟨⟨rfl, rfl, rfl, rfl, rfl⟩, ⟨rfl, rfl, by decide⟩, ?_⟩
  exact (auth_success_iff_sid_uid st0 env2 loginPageHtml "./ucp.php?mode=login&sid=abcd"
    rfl rfl rfl rfl rfl).1 ⟨rfl, rfl, by decide⟩
